import Mathlib

/-!
Shallow embedding of `src/packages/ui/verification.py` (a Playwright UI
verification script) and proofs about it.

The script is a single linear procedure `verify_language_setting`.  We model
it as a function from an environment — the observable behaviour of the page
(button texts, whether individual library calls raise, the count of the
language-selector locator, heading visibility) — to either a trace of
performed effects (`Except.ok`) or a propagated exception (`Except.error`,
tagged with the name of the raising call).  Calls wrapped in the try/except
blocks of the script never produce an `Except.error`: their failure is recorded
in the environment (an unreadable button text, a raising click, a raising
loading wait) and the trace simply continues, exactly as the Python code
swallows those exceptions.  Calls outside any try block (page.goto,
select.select_option, page.screenshot) propagate their failure.
-/

/-- A fulfilled HTTP response, as passed to Playwright `route.fulfill`. -/
structure Response where
  status : Nat
  contentType : String
  body : String
deriving DecidableEq

/-- Observable effects the script performs, in program order. -/
inductive Event where
  /-- `page.route(pattern, lambda route: route.fulfill(resp))` with a fixed,
  request-independent response. -/
  | route (pattern : String) (resp : Response)
  /-- `page.route(pattern, handle_put)`: registration of the dynamic handler. -/
  | routeHandler (pattern : String)
  /-- `page.unroute(pattern)`. -/
  | unroute (pattern : String)
  /-- `page.goto(url)`. -/
  | goto (url : String)
  /-- `expect(page.get_by_text(text)).not_to_be_visible(timeout=timeoutMs)`;
  `raised` records whether the wait raised (the exception is swallowed). -/
  | waitHidden (text : String) (timeoutMs : Nat) (raised : Bool)
  /-- `btn.click()` on the button at index `idx`; `raised` records whether the
  click raised (the exception is swallowed by the surrounding try). -/
  | clickTry (idx : Nat) (raised : Bool)
  /-- `time.sleep(n)`. -/
  | sleepSec (n : Nat)
  /-- `select.select_option(value)`. -/
  | selectOption (value : String)
  /-- `page.screenshot(path=path)`. -/
  | screenshot (path : String)
  /-- `page.get_by_role("heading", name=name)` followed by `is_visible()`,
  with the returned visibility. -/
  | headingCheck (name : String) (visible : Bool)
  /-- `print(msg)`. -/
  | print (msg : String)
deriving DecidableEq

/-- Behaviour of one button handle returned by `page.get_by_role("button").all()`.
`text = none` models a `text_content()` call that raises (or returns `None`,
which makes the `in` test raise `TypeError`); `clickRaises` models whether
`btn.click()` raises. -/
structure ButtonBehavior where
  text : Option String
  clickRaises : Bool
deriving DecidableEq

/-- The observable behaviour of the page and the library calls during one run. -/
structure Env where
  /-- whether `page.goto` raises (not wrapped in try). -/
  gotoRaises : Bool
  /-- whether the loading-indicator wait raises (wrapped in try, swallowed). -/
  loadWaitRaises : Bool
  /-- the buttons enumerated by `page.get_by_role("button").all()`. -/
  buttons : List ButtonBehavior
  /-- result of `page.locator(".lang-switcher select").count()`. -/
  selectCount : Nat
  /-- whether `select.select_option("en")` raises (not wrapped in try). -/
  selectOptionRaises : Bool
  /-- whether `page.screenshot` raises (not wrapped in try). -/
  screenshotRaises : Bool
  /-- result of `heading.is_visible()`. -/
  headingVisible : Bool
deriving DecidableEq

/-- `needle.isPrefixOf hay || ...` over all suffixes: the Python substring
test `needle in hay`, on the character lists. -/
def listHasSub (hay needle : List Char) : Bool :=
  match hay with
  | [] => needle.isEmpty
  | _ :: t => needle.isPrefixOf hay || listHasSub t needle

/-- The Python test `needle in hay` for strings. -/
def strContains (hay needle : String) : Bool :=
  listHasSub hay.data needle.data

/-- `"설정" in txt or "Settings" in txt`. -/
def btnMatches (txt : String) : Bool :=
  strContains txt "설정" || strContains txt "Settings"

/-- `b.text_content()` succeeded and the text matches a settings label. -/
def readableMatch (b : ButtonBehavior) : Bool :=
  match b.text with
  | none => false
  | some t => btnMatches t

/-- The button-scanning loop:
```
for i, btn in enumerate(buttons):
    try:
        txt = btn.text_content()
        if "설정" in txt or "Settings" in txt:
            btn.click()
            break
    except:
        pass
```
`i` is the index of the first button of the remaining list.  A failing text
read skips the button; a matching button is clicked; if the click raises the
exception is swallowed before the `break`, so the loop continues; only a click
that returns normally reaches the `break`. -/
def buttonLoop (i : Nat) : List ButtonBehavior → List Event
  | [] => []
  | b :: rest =>
    match b.text with
    | none => buttonLoop (i + 1) rest
    | some t =>
      if btnMatches t then
        if b.clickRaises then Event.clickTry i true :: buttonLoop (i + 1) rest
        else [Event.clickTry i false]
      else buttonLoop (i + 1) rest

/-- Initial mock for `**/api/frontend-settings` (no locale set). -/
def frontendSettingsMock : Response :=
  ⟨200, "application/json",
   "\x7b\"settings\": \x7b\"toast\": \x7b\"stateChange\": false, \"command\": true\x7d\x7d\x7d"⟩

/-- Mock for `**/api/bridge/info`. -/
def bridgeInfoMock : Response :=
  ⟨200, "application/json",
   "\x7b\"bridges\": [], \"mqttUrl\": \"ws://localhost:1883\", \"status\": \"started\", \"topic\": \"test\"\x7d"⟩

/-- Mock for `**/api/activity/recent`. -/
def activityRecentMock : Response :=
  ⟨200, "application/json", "[]"⟩

/-- Mock for `**/api/log-sharing/status`. -/
def logSharingStatusMock : Response :=
  ⟨200, "application/json", "\x7b\"asked\": true, \"consented\": false\x7d"⟩

/-- Mock for `**/api/commands`. -/
def commandsMock : Response :=
  ⟨200, "application/json", "\x7b\"commands\": []\x7d"⟩

/-- The five `page.route` registrations performed before `page.goto`. -/
def initialRouteEvents : List Event :=
  [Event.route "**/api/frontend-settings" frontendSettingsMock,
   Event.route "**/api/bridge/info" bridgeInfoMock,
   Event.route "**/api/activity/recent" activityRecentMock,
   Event.route "**/api/log-sharing/status" logSharingStatusMock,
   Event.route "**/api/commands" commandsMock]

/-- The response fulfilled by `handle_put` (fixed success payload, locale "en"). -/
def putFulfillResponse : Response :=
  ⟨200, "application/json",
   "\x7b\"settings\": \x7b\"toast\": \x7b\"stateChange\": false, \"command\": true\x7d, \"locale\": \"en\"\x7d\x7d"⟩

/-- An intercepted request as seen by the replacement route handler. -/
structure PutRequest where
  method : String
  postData : Option String
deriving DecidableEq

/-- Python `print` rendering of `route.request.post_data` (`None` or the body). -/
def showPostData : Option String → String
  | none => "None"
  | some s => s

/-- The replacement handler for `**/api/frontend-settings`:
```
def handle_put(route):
    print the line "PUT request received: " followed by route.request.post_data
    route.fulfill(status=200, content_type="application/json",
                  body=...locale en...)
```
returns the printed line and the fulfilled response. -/
def handle_put (req : PutRequest) : String × Response :=
  ("PUT request received: " ++ showPostData req.postData, putFulfillResponse)

/-- Effects common to every run that gets past `page.goto`: the five mock
registrations, the navigation prints and goto, the best-effort loading wait,
the button loop, and the 1-second pause. -/
def traceStart (env : Env) : List Event :=
  initialRouteEvents ++
    [Event.print "Navigating to app...",
     Event.goto "http://localhost:5173/",
     Event.waitHidden "Loading resources..." 10000 env.loadWaitRaises,
     Event.print "Navigating to Settings..."] ++
    buttonLoop 0 env.buttons ++
    [Event.sleepSec 1]

/-- Effects of the `select.count() > 0` branch, given the heading visibility. -/
def switcherTrace (hv : Bool) : List Event :=
  [Event.print "Found language switcher!",
   Event.unroute "**/api/frontend-settings",
   Event.routeHandler "**/api/frontend-settings",
   Event.print "Changing language to English...",
   Event.selectOption "en",
   Event.sleepSec 2,
   Event.screenshot "verification/final_english_settings.png",
   Event.headingCheck "Settings" hv,
   Event.print (if hv then "Verification SUCCESS: \x27Settings\x27 heading found."
                else "Verification FAILED: \x27Settings\x27 heading not found.")]

/-- The whole script.  Calls outside any try block that raise abort the run
with an `Except.error` naming the call, in program order; everything wrapped
in a try/except is swallowed and merely recorded in the trace. -/
def verify_language_setting (env : Env) : Except String (List Event) :=
  if env.gotoRaises then Except.error "page.goto"
  else if env.selectCount > 0 then
    if env.selectOptionRaises then Except.error "select.select_option"
    else if env.screenshotRaises then Except.error "page.screenshot"
    else Except.ok (traceStart env ++ switcherTrace env.headingVisible)
  else Except.ok (traceStart env ++ [Event.print "Language switcher not found."])

/-- Clicks recorded in a trace, with their raised flag. -/
def clicksOf (tr : List Event) : List (Nat × Bool) :=
  tr.filterMap fun e =>
    match e with
    | Event.clickTry i r => some (i, r)
    | _ => none

/-- Sleep durations recorded in a trace. -/
def sleepsOf (tr : List Event) : List Nat :=
  tr.filterMap fun e =>
    match e with
    | Event.sleepSec n => some n
    | _ => none

/-- Explicit-timeout waits recorded in a trace. -/
def waitsOf (tr : List Event) : List (String × Nat) :=
  tr.filterMap fun e =>
    match e with
    | Event.waitHidden t ms _ => some (t, ms)
    | _ => none

/-- Is the event a static `page.route` registration? -/
def isRouteEvt : Event → Bool
  | Event.route _ _ => true
  | _ => false

/-- Is the event a `page.unroute`? -/
def isUnrouteEvt : Event → Bool
  | Event.unroute _ => true
  | _ => false

/-- Is the event the registration of the dynamic handler? -/
def isRouteHandlerEvt : Event → Bool
  | Event.routeHandler _ => true
  | _ => false

/-- Is the event a `select_option` call? -/
def isSelectOptionEvt : Event → Bool
  | Event.selectOption _ => true
  | _ => false

/-- Is the event a screenshot capture? -/
def isScreenshotEvt : Event → Bool
  | Event.screenshot _ => true
  | _ => false

/-- Is the event a heading-visibility check? -/
def isHeadingCheckEvt : Event → Bool
  | Event.headingCheck _ _ => true
  | _ => false

/-- Reference definition, following the words of claim C3: the index of the first
button whose text can be read and contains a settings label, scanning from
index `i`. -/
def spec_firstSettingsButton (i : Nat) : List ButtonBehavior → Option Nat
  | [] => none
  | b :: rest =>
    if readableMatch b then some i else spec_firstSettingsButton (i + 1) rest

/-- The messages printed along a trace, in order. -/
def printsOf (tr : List Event) : List String :=
  tr.filterMap fun e =>
    match e with
    | Event.print m => some m
    | _ => none

/-- A run with the switcher present, a well-behaved page, and a visible
"Settings" heading. -/
def envAllOk : Env :=
  ⟨false, false, [⟨some "Settings", false⟩], 1, false, false, true⟩

/-- A run with the switcher present but where the "Settings" heading is not
visible afterwards. -/
def envHeadingMissing : Env :=
  ⟨false, false, [⟨some "Settings", false⟩], 1, false, false, false⟩

/-- A run where every call wrapped in a try/except misbehaves: the loading
wait raises, one button text cannot be read, one matching click raises. -/
def envMessy : Env :=
  ⟨false, true, [⟨none, false⟩, ⟨some "Settings", true⟩, ⟨some "설정", false⟩],
   1, false, false, false⟩

/-- A run where the language switcher is absent. -/
def envNoSwitcher : Env :=
  ⟨false, false, [], 0, false, false, false⟩

/-- A run where `page.screenshot` raises (e.g. the `verification/` directory
cannot be written). -/
def envScreenshotRaise : Env :=
  ⟨false, false, [⟨some "Settings", false⟩], 1, false, true, true⟩

theorem buttonLoop_only_clicks : ∀ (bs : List ButtonBehavior) (i : Nat) (e : Event),
    e ∈ buttonLoop i bs → ∃ j r, e = Event.clickTry j r := by
  intro bs
  induction bs with
  | nil => intro i e h; simp [buttonLoop] at h
  | cons b rest ih =>
    intro i e h
    obtain ⟨txt, cr⟩ := b
    cases txt with
    | none => exact ih (i + 1) e (by simpa [buttonLoop] using h)
    | some t =>
      by_cases hm : btnMatches t
      · cases cr with
        | true =>
          simp [buttonLoop, hm] at h
          rcases h with h | h
          · exact ⟨i, true, h⟩
          · exact ih (i + 1) e h
        | false =>
          simp [buttonLoop, hm] at h
          exact ⟨i, false, h⟩
      · exact ih (i + 1) e (by simpa [buttonLoop, hm] using h)

theorem buttonLoop_filterMap_nil {α : Type} (f : Event → Option α)
    (hf : ∀ j r, f (Event.clickTry j r) = none) (i : Nat) (bs : List ButtonBehavior) :
    (buttonLoop i bs).filterMap f = [] := by
  rw [List.filterMap_eq_nil_iff]
  intro e he
  obtain ⟨j, r, rfl⟩ := buttonLoop_only_clicks bs i e he
  exact hf j r

theorem buttonLoop_filter_nil (p : Event → Bool)
    (hp : ∀ j r, p (Event.clickTry j r) = false) (i : Nat) (bs : List ButtonBehavior) :
    (buttonLoop i bs).filter p = [] := by
  rw [List.filter_eq_nil_iff]
  intro e he
  obtain ⟨j, r, rfl⟩ := buttonLoop_only_clicks bs i e he
  simp [hp j r]

theorem buttonLoop_no_print (i : Nat) (bs : List ButtonBehavior) (msg : String) :
    Event.print msg ∉ buttonLoop i bs := by
  intro h
  obtain ⟨j, r, hjr⟩ := buttonLoop_only_clicks bs i _ h
  exact Event.noConfusion hjr

theorem clicksOf_buttonLoop_no_raise : ∀ (bs : List ButtonBehavior) (i : Nat),
    (∀ b ∈ bs, b.clickRaises = false) →
    clicksOf (buttonLoop i bs) =
      ((spec_firstSettingsButton i bs).map fun j => (j, false)).toList := by
  intro bs
  induction bs with
  | nil => intro i _; simp [buttonLoop, spec_firstSettingsButton, clicksOf]
  | cons b rest ih =>
    intro i h
    have hb : b.clickRaises = false := h b (List.mem_cons_self b rest)
    have hrest : ∀ x ∈ rest, x.clickRaises = false :=
      fun x hx => h x (List.mem_cons_of_mem b hx)
    obtain ⟨txt, cr⟩ := b
    cases txt with
    | none =>
      simpa [buttonLoop, spec_firstSettingsButton, readableMatch] using ih (i + 1) hrest
    | some t =>
      by_cases hm : btnMatches t
      · simp only [ButtonBehavior.clickRaises] at hb
        simp [buttonLoop, spec_firstSettingsButton, readableMatch, hm, hb, clicksOf]
      · simpa [buttonLoop, spec_firstSettingsButton, readableMatch, hm]
          using ih (i + 1) hrest

theorem buttonLoop_length_all_raise : ∀ (bs : List ButtonBehavior) (i : Nat),
    (∀ b ∈ bs, readableMatch b = true → b.clickRaises = true) →
    (buttonLoop i bs).length = (bs.filter readableMatch).length := by
  intro bs
  induction bs with
  | nil => intro i _; simp [buttonLoop]
  | cons b rest ih =>
    intro i h
    have hrest : ∀ x ∈ rest, readableMatch x = true → x.clickRaises = true :=
      fun x hx => h x (List.mem_cons_of_mem b hx)
    obtain ⟨txt, cr⟩ := b
    cases txt with
    | none =>
      simpa [buttonLoop, readableMatch, List.filter_cons] using ih (i + 1) hrest
    | some t =>
      by_cases hm : btnMatches t
      · have hcr : cr = true :=
          h ⟨some t, cr⟩ (List.mem_cons_self _ _) (by simp [readableMatch, hm])
        subst hcr
        simp [buttonLoop, readableMatch, hm, List.filter_cons, ih (i + 1) hrest]
      · simpa [buttonLoop, readableMatch, hm, List.filter_cons] using ih (i + 1) hrest

theorem sleepsOf_append (l1 l2 : List Event) :
    sleepsOf (l1 ++ l2) = sleepsOf l1 ++ sleepsOf l2 := by
  simp [sleepsOf, List.filterMap_append]

theorem waitsOf_append (l1 l2 : List Event) :
    waitsOf (l1 ++ l2) = waitsOf l1 ++ waitsOf l2 := by
  simp [waitsOf, List.filterMap_append]

theorem printsOf_append (l1 l2 : List Event) :
    printsOf (l1 ++ l2) = printsOf l1 ++ printsOf l2 := by
  simp [printsOf, List.filterMap_append]

theorem sleepsOf_buttonLoop (i : Nat) (bs : List ButtonBehavior) :
    sleepsOf (buttonLoop i bs) = [] := by
  unfold sleepsOf
  exact buttonLoop_filterMap_nil _ (fun _ _ => rfl) i bs

theorem waitsOf_buttonLoop (i : Nat) (bs : List ButtonBehavior) :
    waitsOf (buttonLoop i bs) = [] := by
  unfold waitsOf
  exact buttonLoop_filterMap_nil _ (fun _ _ => rfl) i bs

theorem printsOf_buttonLoop (i : Nat) (bs : List ButtonBehavior) :
    printsOf (buttonLoop i bs) = [] := by
  unfold printsOf
  exact buttonLoop_filterMap_nil _ (fun _ _ => rfl) i bs

theorem traceStart_split (env : Env) :
    traceStart env =
      (initialRouteEvents ++
        [Event.print "Navigating to app...",
         Event.goto "http://localhost:5173/",
         Event.waitHidden "Loading resources..." 10000 env.loadWaitRaises,
         Event.print "Navigating to Settings..."]) ++
      buttonLoop 0 env.buttons ++ [Event.sleepSec 1] := rfl

theorem ok_trace_shape (env : Env) (tr : List Event)
    (h : verify_language_setting env = Except.ok tr) :
    tr = traceStart env ++ switcherTrace env.headingVisible
      ∨ tr = traceStart env ++ [Event.print "Language switcher not found."] := by
  unfold verify_language_setting at h
  split at h
  · exact absurd h (by simp)
  · split at h
    · split at h
      · exact absurd h (by simp)
      · split at h
        · exact absurd h (by simp)
        · exact Or.inl (Except.ok.inj h).symm
    · exact Or.inr (Except.ok.inj h).symm

/-- Claim C9: the replacement handler for frontend-settings is a constant
function of the intercepted request with respect to its fulfilled response:
any two intercepted requests, whatever their method and body, are fulfilled
with the identical response (status 200, content type application/json, and
the fixed body whose settings carry locale "en"); the request body influences
only the printed log line. -/
theorem c9_handler_response_constant :
    (∀ r1 r2 : PutRequest, (handle_put r1).2 = (handle_put r2).2)
    ∧ (∀ r : PutRequest,
        (handle_put r).2.status = 200
        ∧ (handle_put r).2.contentType = "application/json"
        ∧ (handle_put r).2.body =
            "\x7b\"settings\": \x7b\"toast\": \x7b\"stateChange\": false, \"command\": true\x7d, \"locale\": \"en\"\x7d\x7d"
        ∧ (handle_put r).1 = "PUT request received: " ++ showPostData r.postData) :=
  ⟨fun _ _ => rfl, fun _ => ⟨rfl, rfl, rfl, rfl⟩⟩

/-- Claim C2 is false as stated: a failure in a call outside the three
try/except blocks does propagate to the caller.  Concretely, when
`page.screenshot` raises (the switcher being present), the run aborts with
that exception instead of continuing. -/
theorem c2_counterexample_screenshot_error :
    verify_language_setting envScreenshotRaise = Except.error "page.screenshot" := rfl

/-- Claim C2 (amended): the three wrapped sites — the element-text reads and
the clicks inside the button-matching loop, and the loading-wait — each
swallow any exception and execution continues; but exceptions raised by the
calls outside any try block (navigation, option selection, screenshot)
propagate to the caller.  Here: whenever none of the unwrapped calls raises,
the run completes with a trace, for every behaviour of the wrapped calls. -/
theorem c2_amended_wrapped_sites_suppressed (env : Env)
    (hg : env.gotoRaises = false) (hso : env.selectOptionRaises = false)
    (hsc : env.screenshotRaises = false) :
    ∃ tr, verify_language_setting env = Except.ok tr := by
  unfold verify_language_setting
  rw [hg]
  by_cases hs : env.selectCount > 0
  · rw [hso, hsc]
    simp [hs]
  · simp [hs]

/-- Witness for C2 (amended): a run where the loading wait raises, one button
text cannot be read, and one matching click raises still completes. -/
theorem c2_amended_wrapped_sites_suppressed_witness :
    ∃ tr, verify_language_setting envMessy = Except.ok tr :=
  c2_amended_wrapped_sites_suppressed envMessy rfl rfl rfl

/-- Claim C3: the button-selection step scans the buttons in order, clicks
exactly the first button whose readable text contains "설정" or "Settings",
stops scanning after that click, and skips (without aborting the loop) any
button whose text cannot be read — stated for runs where no click raises
(a raising click is the subject of C8). -/
theorem c3_first_matching_button_clicked (bs : List ButtonBehavior)
    (h : ∀ b ∈ bs, b.clickRaises = false) :
    clicksOf (buttonLoop 0 bs) =
      ((spec_firstSettingsButton 0 bs).map fun j => (j, false)).toList :=
  clicksOf_buttonLoop_no_raise bs 0 h

/-- Witness for C3: with a non-matching button, an unreadable one, and two
matching ones, exactly the first matching button (index 2) is clicked. -/
theorem c3_first_matching_button_clicked_witness :
    clicksOf (buttonLoop 0 [⟨some "Home", false⟩, ⟨none, false⟩,
        ⟨some "Settings", false⟩, ⟨some "설정", false⟩]) =
      ((spec_firstSettingsButton 0 [⟨some "Home", false⟩, ⟨none, false⟩,
        ⟨some "Settings", false⟩, ⟨some "설정", false⟩]).map fun j => (j, false)).toList :=
  c3_first_matching_button_clicked _ (by decide)

/-- Claim C8: in the button loop the try/except wraps the click as well as the
text read.  A raising click on a matching button is swallowed, the break is
not reached, and scanning continues with the remaining buttons (so a later
matching button may also be clicked); a matching button whose click returns
normally ends the loop at once; and when the click of every matching button raises,
the loop scans the whole list, emitting one click attempt per readable
matching button (no early termination). -/
theorem c8_click_exception_swallowed_loop_continues :
    (∀ (i : Nat) (b : ButtonBehavior) (rest : List ButtonBehavior),
        readableMatch b = true → b.clickRaises = true →
        buttonLoop i (b :: rest) = Event.clickTry i true :: buttonLoop (i + 1) rest)
    ∧ (∀ (i : Nat) (b : ButtonBehavior) (rest : List ButtonBehavior),
        readableMatch b = true → b.clickRaises = false →
        buttonLoop i (b :: rest) = [Event.clickTry i false])
    ∧ (∀ (bs : List ButtonBehavior) (i : Nat),
        (∀ b ∈ bs, readableMatch b = true → b.clickRaises = true) →
        (buttonLoop i bs).length = (bs.filter readableMatch).length) := by
  refine ⟨?_, ?_, fun bs i h => buttonLoop_length_all_raise bs i h⟩
  · intro i b rest hr hc
    obtain ⟨txt, cr⟩ := b
    cases txt with
    | none => simp [readableMatch] at hr
    | some t =>
      simp only [readableMatch] at hr
      simp only [ButtonBehavior.clickRaises] at hc
      subst hc
      simp [buttonLoop, hr]
  · intro i b rest hr hc
    obtain ⟨txt, cr⟩ := b
    cases txt with
    | none => simp [readableMatch] at hr
    | some t =>
      simp only [readableMatch] at hr
      simp only [ButtonBehavior.clickRaises] at hc
      subst hc
      simp [buttonLoop, hr]

/-- Witness for C8: a matching button whose click raises is recorded and the
loop goes on with the remaining buttons. -/
theorem c8_click_exception_swallowed_loop_continues_witness :
    buttonLoop 0 [(⟨some "Settings", true⟩ : ButtonBehavior), ⟨some "설정", false⟩] =
      Event.clickTry 0 true :: buttonLoop 1 [⟨some "설정", false⟩] :=
  c8_click_exception_swallowed_loop_continues.1 0 ⟨some "Settings", true⟩
    [⟨some "설정", false⟩] (by decide) rfl

/-- Claim C5: before navigating to the target page, the script registers
exactly five network-route mocks, for frontend-settings, bridge/info,
activity/recent, log-sharing/status and commands, each of which fulfills every
matching request with status 200 and a fixed, request-independent JSON body
(the `Event.route` events carry the single fixed response their lambda
fulfills): in every completed run the trace starts with those five
registrations, followed by the navigation print and `page.goto`. -/
theorem c5_five_initial_mocks (env : Env) (tr : List Event)
    (h : verify_language_setting env = Except.ok tr) :
    tr.take 7 =
      [Event.route "**/api/frontend-settings" frontendSettingsMock,
       Event.route "**/api/bridge/info" bridgeInfoMock,
       Event.route "**/api/activity/recent" activityRecentMock,
       Event.route "**/api/log-sharing/status" logSharingStatusMock,
       Event.route "**/api/commands" commandsMock,
       Event.print "Navigating to app...",
       Event.goto "http://localhost:5173/"]
    ∧ (∀ e ∈ tr.take 5, ∃ p r, e = Event.route p r ∧ r.status = 200) := by
  rcases ok_trace_shape env tr h with rfl | rfl <;>
  · constructor
    · simp [traceStart, initialRouteEvents]
    · intro e he
      simp only [traceStart, initialRouteEvents, List.cons_append, List.nil_append,
        List.take_succ_cons, List.take_zero, List.mem_cons, List.not_mem_nil,
        or_false] at he
      rcases he with rfl | rfl | rfl | rfl | rfl
      · exact ⟨_, _, rfl, rfl⟩
      · exact ⟨_, _, rfl, rfl⟩
      · exact ⟨_, _, rfl, rfl⟩
      · exact ⟨_, _, rfl, rfl⟩
      · exact ⟨_, _, rfl, rfl⟩

/-- Witness for C5, on a run where the switcher is absent. -/
theorem c5_five_initial_mocks_witness :
    (traceStart envNoSwitcher ++ [Event.print "Language switcher not found."]).take 7 =
      [Event.route "**/api/frontend-settings" frontendSettingsMock,
       Event.route "**/api/bridge/info" bridgeInfoMock,
       Event.route "**/api/activity/recent" activityRecentMock,
       Event.route "**/api/log-sharing/status" logSharingStatusMock,
       Event.route "**/api/commands" commandsMock,
       Event.print "Navigating to app...",
       Event.goto "http://localhost:5173/"]
    ∧ (∀ e ∈ (traceStart envNoSwitcher ++
          [Event.print "Language switcher not found."]).take 5,
        ∃ p r, e = Event.route p r ∧ r.status = 200) :=
  c5_five_initial_mocks envNoSwitcher _ rfl

/-- Claim C6: whenever the language-selector locator count is zero, the script
prints "Language switcher not found." and terminates without any of the
subsequent actions: the only route registrations in the trace are the five
initial mocks (no unroute and no re-route of frontend-settings), no option is
selected, no screenshot is written, no heading check occurs, and no
success/failure message is printed (the complete print output is the two
navigation lines and the report line, which is also the last event). -/
theorem c6_switcher_absent (env : Env)
    (hsel : env.selectCount = 0) (hg : env.gotoRaises = false) :
    ∃ tr, verify_language_setting env = Except.ok tr
      ∧ printsOf tr = ["Navigating to app...", "Navigating to Settings...",
          "Language switcher not found."]
      ∧ tr.getLast? = some (Event.print "Language switcher not found.")
      ∧ tr.filter isRouteEvt = initialRouteEvents
      ∧ tr.filter isUnrouteEvt = []
      ∧ tr.filter isRouteHandlerEvt = []
      ∧ tr.filter isSelectOptionEvt = []
      ∧ tr.filter isScreenshotEvt = []
      ∧ tr.filter isHeadingCheckEvt = [] := by
  refine ⟨traceStart env ++ [Event.print "Language switcher not found."],
    ?_, ?_, ?_, ?_, ?_, ?_, ?_, ?_, ?_⟩
  · simp [verify_language_setting, hg, hsel]
  · rw [traceStart_split, printsOf_append, printsOf_append, printsOf_append,
      printsOf_buttonLoop]
    rfl
  · simp
  · rw [traceStart_split, List.filter_append, List.filter_append, List.filter_append,
      List.filter_append, buttonLoop_filter_nil isRouteEvt (fun _ _ => rfl)]
    rfl
  · rw [traceStart_split, List.filter_append, List.filter_append, List.filter_append,
      List.filter_append, buttonLoop_filter_nil isUnrouteEvt (fun _ _ => rfl)]
    rfl
  · rw [traceStart_split, List.filter_append, List.filter_append, List.filter_append,
      List.filter_append, buttonLoop_filter_nil isRouteHandlerEvt (fun _ _ => rfl)]
    rfl
  · rw [traceStart_split, List.filter_append, List.filter_append, List.filter_append,
      List.filter_append, buttonLoop_filter_nil isSelectOptionEvt (fun _ _ => rfl)]
    rfl
  · rw [traceStart_split, List.filter_append, List.filter_append, List.filter_append,
      List.filter_append, buttonLoop_filter_nil isScreenshotEvt (fun _ _ => rfl)]
    rfl
  · rw [traceStart_split, List.filter_append, List.filter_append, List.filter_append,
      List.filter_append, buttonLoop_filter_nil isHeadingCheckEvt (fun _ _ => rfl)]
    rfl

/-- Witness for C6, at a concrete run with the switcher absent. -/
theorem c6_switcher_absent_witness :
    ∃ tr, verify_language_setting envNoSwitcher = Except.ok tr
      ∧ printsOf tr = ["Navigating to app...", "Navigating to Settings...",
          "Language switcher not found."]
      ∧ tr.getLast? = some (Event.print "Language switcher not found.")
      ∧ tr.filter isRouteEvt = initialRouteEvents
      ∧ tr.filter isUnrouteEvt = []
      ∧ tr.filter isRouteHandlerEvt = []
      ∧ tr.filter isSelectOptionEvt = []
      ∧ tr.filter isScreenshotEvt = []
      ∧ tr.filter isHeadingCheckEvt = [] :=
  c6_switcher_absent envNoSwitcher rfl rfl

/-- Claim C1: in every run where the five mocks are registered and the
language-selector control is present (and no unwrapped call raises), after
`select_option("en")` the script saves the screenshot at the fixed path
`verification/final_english_settings.png` and then checks that a heading named
"Settings" is visible, printing the success message exactly when it is (and
the failure message otherwise). -/
theorem c1_select_then_screenshot_then_heading (env : Env)
    (hsel : 0 < env.selectCount) (hg : env.gotoRaises = false)
    (hso : env.selectOptionRaises = false) (hsc : env.screenshotRaises = false) :
    ∃ mid, verify_language_setting env =
      Except.ok (initialRouteEvents ++ mid ++
        [Event.selectOption "en",
         Event.sleepSec 2,
         Event.screenshot "verification/final_english_settings.png",
         Event.headingCheck "Settings" env.headingVisible,
         Event.print (if env.headingVisible
            then "Verification SUCCESS: \x27Settings\x27 heading found."
            else "Verification FAILED: \x27Settings\x27 heading not found.")]) := by
  refine ⟨[Event.print "Navigating to app...",
      Event.goto "http://localhost:5173/",
      Event.waitHidden "Loading resources..." 10000 env.loadWaitRaises,
      Event.print "Navigating to Settings..."] ++
      buttonLoop 0 env.buttons ++
      [Event.sleepSec 1,
       Event.print "Found language switcher!",
       Event.unroute "**/api/frontend-settings",
       Event.routeHandler "**/api/frontend-settings",
       Event.print "Changing language to English..."], ?_⟩
  simp [verify_language_setting, hg, hso, hsc, hsel, traceStart, switcherTrace,
    initialRouteEvents]

/-- Witness for C1, at a concrete well-behaved run with the heading visible. -/
theorem c1_select_then_screenshot_then_heading_witness :
    ∃ mid, verify_language_setting envAllOk =
      Except.ok (initialRouteEvents ++ mid ++
        [Event.selectOption "en",
         Event.sleepSec 2,
         Event.screenshot "verification/final_english_settings.png",
         Event.headingCheck "Settings" envAllOk.headingVisible,
         Event.print (if envAllOk.headingVisible
            then "Verification SUCCESS: \x27Settings\x27 heading found."
            else "Verification FAILED: \x27Settings\x27 heading not found.")]) :=
  c1_select_then_screenshot_then_heading envAllOk (by decide) rfl rfl rfl

/-- Claim C4: in every run with the language selector present (and no
unwrapped call raising), the script performs, in this order: it removes the
frontend-settings mock (`unroute`) and installs the replacement handler; it
selects the "en" option; it pauses for the fixed 2-second delay; it captures a
screenshot to the fixed path; and it checks that the heading "Settings" is
visible, printing success or failure accordingly.  The installed handler
echoes the intercepted request body in its printed line and returns the fixed
success payload. -/
theorem c4_switcher_branch_sequence (env : Env)
    (hsel : 0 < env.selectCount) (hg : env.gotoRaises = false)
    (hso : env.selectOptionRaises = false) (hsc : env.screenshotRaises = false) :
    (∃ pre, verify_language_setting env =
      Except.ok (pre ++
        [Event.print "Found language switcher!",
         Event.unroute "**/api/frontend-settings",
         Event.routeHandler "**/api/frontend-settings",
         Event.print "Changing language to English...",
         Event.selectOption "en",
         Event.sleepSec 2,
         Event.screenshot "verification/final_english_settings.png",
         Event.headingCheck "Settings" env.headingVisible,
         Event.print (if env.headingVisible
            then "Verification SUCCESS: \x27Settings\x27 heading found."
            else "Verification FAILED: \x27Settings\x27 heading not found.")]))
    ∧ (∀ req : PutRequest, handle_put req =
        ("PUT request received: " ++ showPostData req.postData, putFulfillResponse)) := by
  refine ⟨⟨traceStart env, ?_⟩, fun _ => rfl⟩
  simp [verify_language_setting, hg, hso, hsc, hsel, switcherTrace]

/-- Witness for C4, at a concrete well-behaved run. -/
theorem c4_switcher_branch_sequence_witness :
    (∃ pre, verify_language_setting envAllOk =
      Except.ok (pre ++
        [Event.print "Found language switcher!",
         Event.unroute "**/api/frontend-settings",
         Event.routeHandler "**/api/frontend-settings",
         Event.print "Changing language to English...",
         Event.selectOption "en",
         Event.sleepSec 2,
         Event.screenshot "verification/final_english_settings.png",
         Event.headingCheck "Settings" envAllOk.headingVisible,
         Event.print (if envAllOk.headingVisible
            then "Verification SUCCESS: \x27Settings\x27 heading found."
            else "Verification FAILED: \x27Settings\x27 heading not found.")]))
    ∧ (∀ req : PutRequest, handle_put req =
        ("PUT request received: " ++ showPostData req.postData, putFulfillResponse)) :=
  c4_switcher_branch_sequence envAllOk (by decide) rfl rfl rfl

/-- Claim C7: a completed run with the switcher present contains exactly two
fixed-duration pauses — 1 second placed right after the button-scanning loop
(the settings-button click) and 2 seconds right after selecting the language
option — and exactly one explicit timeout, the 10000-millisecond bound on the
single wait for the loading indicator; no other event of the run carries a
pause or an explicit timeout. -/
theorem c7_two_pauses_one_timeout (env : Env)
    (hsel : 0 < env.selectCount) (hg : env.gotoRaises = false)
    (hso : env.selectOptionRaises = false) (hsc : env.screenshotRaises = false) :
    ∃ tr, verify_language_setting env = Except.ok tr
      ∧ sleepsOf tr = [1, 2]
      ∧ waitsOf tr = [("Loading resources...", 10000)]
      ∧ (∃ a b, tr = a ++ [Event.selectOption "en", Event.sleepSec 2] ++ b)
      ∧ (∃ c d, tr = c ++ buttonLoop 0 env.buttons ++ [Event.sleepSec 1] ++ d) := by
  refine ⟨traceStart env ++ switcherTrace env.headingVisible, ?_, ?_, ?_, ?_, ?_⟩
  · simp [verify_language_setting, hg, hso, hsc, hsel]
  · rw [traceStart_split, sleepsOf_append, sleepsOf_append, sleepsOf_append,
      sleepsOf_buttonLoop]
    rfl
  · rw [traceStart_split, waitsOf_append, waitsOf_append, waitsOf_append,
      waitsOf_buttonLoop]
    rfl
  · refine ⟨traceStart env ++
      [Event.print "Found language switcher!",
       Event.unroute "**/api/frontend-settings",
       Event.routeHandler "**/api/frontend-settings",
       Event.print "Changing language to English..."],
      [Event.screenshot "verification/final_english_settings.png",
       Event.headingCheck "Settings" env.headingVisible,
       Event.print (if env.headingVisible
          then "Verification SUCCESS: \x27Settings\x27 heading found."
          else "Verification FAILED: \x27Settings\x27 heading not found.")], ?_⟩
    simp [switcherTrace]
  · refine ⟨initialRouteEvents ++
      [Event.print "Navigating to app...",
       Event.goto "http://localhost:5173/",
       Event.waitHidden "Loading resources..." 10000 env.loadWaitRaises,
       Event.print "Navigating to Settings..."],
      switcherTrace env.headingVisible, ?_⟩
    simp [traceStart]

/-- Witness for C7, at a run where the wrapped calls all misbehave: the two
pauses and the single 10-second timeout are unchanged. -/
theorem c7_two_pauses_one_timeout_witness :
    ∃ tr, verify_language_setting envMessy = Except.ok tr
      ∧ sleepsOf tr = [1, 2]
      ∧ waitsOf tr = [("Loading resources...", 10000)]
      ∧ (∃ a b, tr = a ++ [Event.selectOption "en", Event.sleepSec 2] ++ b)
      ∧ (∃ c d, tr = c ++ buttonLoop 0 envMessy.buttons ++ [Event.sleepSec 1] ++ d) :=
  c7_two_pauses_one_timeout envMessy (by decide) rfl rfl rfl

/-- Claim C10: with the switcher present, the screenshot at
`verification/final_english_settings.png` is captured before the
heading-visibility check, and exactly one of the success/failure messages is
then printed (the complete print output of the run ends with that one message); in
particular the screenshot event is in the trace even when the heading check
reports failure. -/
theorem c10_screenshot_before_heading_check (env : Env)
    (hsel : 0 < env.selectCount) (hg : env.gotoRaises = false)
    (hso : env.selectOptionRaises = false) (hsc : env.screenshotRaises = false) :
    ∃ tr a, verify_language_setting env = Except.ok tr
      ∧ tr = a ++
          [Event.screenshot "verification/final_english_settings.png",
           Event.headingCheck "Settings" env.headingVisible,
           Event.print (if env.headingVisible
              then "Verification SUCCESS: \x27Settings\x27 heading found."
              else "Verification FAILED: \x27Settings\x27 heading not found.")]
      ∧ printsOf tr =
          ["Navigating to app...", "Navigating to Settings...",
           "Found language switcher!", "Changing language to English...",
           if env.headingVisible
             then "Verification SUCCESS: \x27Settings\x27 heading found."
             else "Verification FAILED: \x27Settings\x27 heading not found."] := by
  refine ⟨traceStart env ++ switcherTrace env.headingVisible,
    traceStart env ++
      [Event.print "Found language switcher!",
       Event.unroute "**/api/frontend-settings",
       Event.routeHandler "**/api/frontend-settings",
       Event.print "Changing language to English...",
       Event.selectOption "en", Event.sleepSec 2], ?_, ?_, ?_⟩
  · simp [verify_language_setting, hg, hso, hsc, hsel]
  · simp [switcherTrace]
  · rw [traceStart_split, printsOf_append, printsOf_append, printsOf_append,
      printsOf_buttonLoop]
    rfl

/-- Witness for C10, at a run where the heading check fails: the screenshot
is still captured and exactly the failure message is printed. -/
theorem c10_screenshot_before_heading_check_witness :
    ∃ tr a, verify_language_setting envHeadingMissing = Except.ok tr
      ∧ tr = a ++
          [Event.screenshot "verification/final_english_settings.png",
           Event.headingCheck "Settings" envHeadingMissing.headingVisible,
           Event.print (if envHeadingMissing.headingVisible
              then "Verification SUCCESS: \x27Settings\x27 heading found."
              else "Verification FAILED: \x27Settings\x27 heading not found.")]
      ∧ printsOf tr =
          ["Navigating to app...", "Navigating to Settings...",
           "Found language switcher!", "Changing language to English...",
           if envHeadingMissing.headingVisible
             then "Verification SUCCESS: \x27Settings\x27 heading found."
             else "Verification FAILED: \x27Settings\x27 heading not found."] :=
  c10_screenshot_before_heading_check envHeadingMissing (by decide) rfl rfl rfl
